import Mathlib

/-!
Shallow embedding of src/src/network/networkd-can.c (systemd-stable),
covering the CAN link configurator: the bitrate config parser
(config_parse_can_bitrate), the netlink message builder and submitter
(link_set_can), its completion callbacks (link_set_handler,
link_down_handler) and the entry point (link_configure_can).

Machine integers are modelled as Nat with the relevant bounds explicit;
kernel reply codes are Int (negative errno). Functions from other files of
the repository that are not under src/ (networkd-link.c, parse-util.c,
macro.h, the netlink transport) are modelled from the spec and marked so
in their doc comments.
-/

/-- UINT32_MAX, the largest 32-bit unsigned value. -/
def UINT32_MAX : Nat := 4294967295

/-- USEC_INFINITY, systemd's distinguished "infinite" usec_t sentinel
(UINT64_MAX). -/
def USEC_INFINITY : Nat := 18446744073709551615

/-- USEC_PER_MSEC. -/
def USEC_PER_MSEC : Nat := 1000

/-- The errno value EEXIST. -/
def EEXIST : Int := 17

/-- The errno value ERANGE. -/
def ERANGE : Int := 34

/-- CAN_TERMINATION_OHM_VALUE from networkd-can.c. -/
def CAN_TERMINATION_OHM_VALUE : Nat := 120

/-- CAN_CTRLMODE_LISTENONLY from linux/can/netlink.h (0x02; 0x01 is
CAN_CTRLMODE_LOOPBACK, which networkd does not use). -/
def CAN_CTRLMODE_LISTENONLY : Nat := 2

/-- CAN_CTRLMODE_3_SAMPLES from linux/can/netlink.h. -/
def CAN_CTRLMODE_3_SAMPLES : Nat := 4

/-- CAN_CTRLMODE_BERR_REPORTING from linux/can/netlink.h. -/
def CAN_CTRLMODE_BERR_REPORTING : Nat := 16

/-- CAN_CTRLMODE_FD from linux/can/netlink.h. -/
def CAN_CTRLMODE_FD : Nat := 32

/-- CAN_CTRLMODE_FD_NON_ISO from linux/can/netlink.h. -/
def CAN_CTRLMODE_FD_NON_ISO : Nat := 128

/-- Modelled from the spec: DIV_ROUND_UP from macro.h (not under src/),
the overflow-safe rounding-up division used for the millisecond
conversion of the restart timeout. -/
def DIV_ROUND_UP (x y : Nat) : Nat := x / y + (if x % y ≠ 0 then 1 else 0)

/-- SET_FLAG(v, flag, b) from macro.h: sets bit `flag` of `v` when `b`
holds, clears it otherwise (bit operations on 32-bit values). -/
def SET_FLAG (v flag : Nat) (b : Prop) [Decidable b] : Nat :=
  if b then v ||| flag else v &&& (UINT32_MAX ^^^ flag)

/-- The CAN-relevant fields of the Network structure (the Parameter
Store): uint32 bitrates and sample points, usec_t restart timeout, and
int tri-states where a negative value means "unset", zero "false" and
positive "true". -/
structure Network where
  can_bitrate : Nat
  can_sample_point : Nat
  can_data_bitrate : Nat
  can_data_sample_point : Nat
  can_fd_mode : Int
  can_non_iso : Int
  can_restart_us : Nat
  can_triple_sampling : Int
  can_berr_reporting : Int
  can_listen_only : Int
  can_termination : Int
deriving DecidableEq, Repr

/-- One netlink attribute appended inside the IFLA_INFO_DATA container of
the RTM_NEWLINK "apply parameters" message built by link_set_can. -/
inductive CanAttr where
  | bittiming (bitrate sample_point : Nat)
  | dataBittiming (bitrate sample_point : Nat)
  | restartMs (ms : Nat)
  | ctrlmode (mask flags : Nat)
  | termination (ohm : Nat)
deriving DecidableEq, Repr

/-- The struct can_ctrlmode accumulated by link_set_can. -/
structure CtrlMode where
  mask : Nat
  flags : Nat
deriving DecidableEq, Repr

/-- The common shape of each tri-state branch of link_set_can that
feeds struct can_ctrlmode: when the tri-state x is set (x >= 0), the
branch ORs `flag` into cm.mask and runs SET_FLAG(cm.flags, flag, x);
an unset tri-state leaves cm untouched. -/
def ctrlStep (flag : Nat) (x : Int) (cm : CtrlMode) : CtrlMode :=
  if x ≥ 0 then
    { mask := cm.mask ||| flag, flags := SET_FLAG cm.flags flag (x ≠ 0) }
  else cm

/-- The can_ctrlmode value accumulated by link_set_can across its five
tri-state branches, in source order: fd_mode, non_iso, triple_sampling,
berr_reporting, listen_only.  (In the source the restart-timeout append
is interleaved between the non_iso and triple_sampling branches; it does
not touch cm, so the final cm is this chain.) -/
def canCtrlMode (n : Network) : CtrlMode :=
  ctrlStep CAN_CTRLMODE_LISTENONLY n.can_listen_only
    (ctrlStep CAN_CTRLMODE_BERR_REPORTING n.can_berr_reporting
      (ctrlStep CAN_CTRLMODE_3_SAMPLES n.can_triple_sampling
        (ctrlStep CAN_CTRLMODE_FD_NON_ISO n.can_non_iso
          (ctrlStep CAN_CTRLMODE_FD n.can_fd_mode
            { mask := 0, flags := 0 }))))

/-- The restart_ms value link_set_can computes when can_restart_us > 0:
zero for the USEC_INFINITY sentinel, otherwise
DIV_ROUND_UP(can_restart_us, USEC_PER_MSEC). -/
def restart_ms_of (n : Network) : Nat :=
  if n.can_restart_us = USEC_INFINITY then 0
  else DIV_ROUND_UP n.can_restart_us USEC_PER_MSEC

/-- The attribute list of the "apply parameters" netlink message built by
link_set_can, as the concatenation of its five conditional appends in
source order: bit-timing, data bit-timing, restart timeout, control
mode, termination.  Inside the restart branch, a restart_ms above
UINT32_MAX aborts with -ERANGE; the partially built message is then
discarded unsent, so the error case carries no attribute list.  (In the
source the overflow check sits after the first two appends; hoisting it
is observationally identical because only a fully built message is ever
submitted.) -/
def buildCanMessage (n : Network) : Except Int (List CanAttr) :=
  if n.can_restart_us > 0 ∧ restart_ms_of n > UINT32_MAX then
    Except.error (-ERANGE)
  else
    Except.ok (
      (if n.can_bitrate > 0 ∨ n.can_sample_point > 0 then
        [CanAttr.bittiming n.can_bitrate n.can_sample_point] else []) ++
      (if n.can_data_bitrate > 0 ∨ n.can_data_sample_point > 0 then
        [CanAttr.dataBittiming n.can_data_bitrate n.can_data_sample_point] else []) ++
      (if n.can_restart_us > 0 then
        [CanAttr.restartMs (restart_ms_of n)] else []) ++
      (if (canCtrlMode n).mask ≠ 0 then
        [CanAttr.ctrlmode (canCtrlMode n).mask (canCtrlMode n).flags] else []) ++
      (if n.can_termination ≥ 0 then
        [CanAttr.termination
          (if n.can_termination ≠ 0 then CAN_TERMINATION_OHM_VALUE else 0)] else []))

/-- A Boolean mirror of ctrlStep, taking the decisions of the two
tri-state tests as Booleans; used to settle the control-mode
accumulation by finite case evaluation. -/
def ctrlStepB (flag : Nat) (a b : Bool) (cm : CtrlMode) : CtrlMode :=
  if a then
    { mask := cm.mask ||| flag,
      flags := if b then cm.flags ||| flag else cm.flags &&& (UINT32_MAX ^^^ flag) }
  else cm

/-- A Boolean mirror of canCtrlMode over the ten tri-state decisions. -/
def canCtrlModeB (a1 b1 a2 b2 a3 b3 a4 b4 a5 b5 : Bool) : CtrlMode :=
  ctrlStepB CAN_CTRLMODE_LISTENONLY a5 b5
    (ctrlStepB CAN_CTRLMODE_BERR_REPORTING a4 b4
      (ctrlStepB CAN_CTRLMODE_3_SAMPLES a3 b3
        (ctrlStepB CAN_CTRLMODE_FD_NON_ISO a2 b2
          (ctrlStepB CAN_CTRLMODE_FD a1 b1 { mask := 0, flags := 0 }))))

/-- Boolean mirror of the spec's control-mode mask: each configured
tri-state contributes exactly its own bit. -/
def maskClosedB (a1 a2 a3 a4 a5 : Bool) : Nat :=
  (if a1 then CAN_CTRLMODE_FD else 0) +
  (if a2 then CAN_CTRLMODE_FD_NON_ISO else 0) +
  (if a3 then CAN_CTRLMODE_3_SAMPLES else 0) +
  (if a4 then CAN_CTRLMODE_BERR_REPORTING else 0) +
  (if a5 then CAN_CTRLMODE_LISTENONLY else 0)

/-- Boolean mirror of the spec's control-mode flags: each configured
tri-state contributes its bit exactly when its value is true. -/
def flagsClosedB (a1 b1 a2 b2 a3 b3 a4 b4 a5 b5 : Bool) : Nat :=
  (if a1 ∧ b1 then CAN_CTRLMODE_FD else 0) +
  (if a2 ∧ b2 then CAN_CTRLMODE_FD_NON_ISO else 0) +
  (if a3 ∧ b3 then CAN_CTRLMODE_3_SAMPLES else 0) +
  (if a4 ∧ b4 then CAN_CTRLMODE_BERR_REPORTING else 0) +
  (if a5 ∧ b5 then CAN_CTRLMODE_LISTENONLY else 0)

/-- The control-mode mask as the spec words it: the sum of the bits of
exactly the explicitly configured tri-state flags. -/
def maskClosed (n : Network) : Nat :=
  (if n.can_fd_mode ≥ 0 then CAN_CTRLMODE_FD else 0) +
  (if n.can_non_iso ≥ 0 then CAN_CTRLMODE_FD_NON_ISO else 0) +
  (if n.can_triple_sampling ≥ 0 then CAN_CTRLMODE_3_SAMPLES else 0) +
  (if n.can_berr_reporting ≥ 0 then CAN_CTRLMODE_BERR_REPORTING else 0) +
  (if n.can_listen_only ≥ 0 then CAN_CTRLMODE_LISTENONLY else 0)

/-- The control-mode flags field as the spec words it: a configured
tri-state contributes its bit exactly when its configured value is
true; unset flags contribute nothing. -/
def flagsClosed (n : Network) : Nat :=
  (if n.can_fd_mode ≥ 0 ∧ n.can_fd_mode ≠ 0 then CAN_CTRLMODE_FD else 0) +
  (if n.can_non_iso ≥ 0 ∧ n.can_non_iso ≠ 0 then CAN_CTRLMODE_FD_NON_ISO else 0) +
  (if n.can_triple_sampling ≥ 0 ∧ n.can_triple_sampling ≠ 0 then CAN_CTRLMODE_3_SAMPLES else 0) +
  (if n.can_berr_reporting ≥ 0 ∧ n.can_berr_reporting ≠ 0 then CAN_CTRLMODE_BERR_REPORTING else 0) +
  (if n.can_listen_only ≥ 0 ∧ n.can_listen_only ≠ 0 then CAN_CTRLMODE_LISTENONLY else 0)

/-- config_parse_can_bitrate from networkd-can.c.  parse_size (from
parse-util.c, not under src/) is abstracted: its result is passed in as
an Except value (error = negative errno from parsing, ok = the parsed
uint64).  The function returns the new value of the output field `br`
together with its return code. -/
def config_parse_can_bitrate (parse_result : Except Int Nat) (br : Nat) :
    Nat × Int :=
  match parse_result with
  | Except.error _ => (br, 0)
  | Except.ok sz =>
      if sz ≤ 0 ∨ sz > UINT32_MAX then (br, 0)
      else (sz, 0)

/-- The link lifecycle states relevant here (from networkd-link.h, not
under src/): LINK_STATE_FAILED and LINK_STATE_LINGER are terminal. -/
inductive LinkState where
  | pending
  | configuring
  | configured
  | unmanaged
  | failed
  | linger
deriving DecidableEq, Repr

/-- The fields of a Link that the CAN configurator reads or writes:
lifecycle state, the IFF_UP bit of its flags, its (nullable) kind string,
its network (Parameter Store) and its reference count. -/
structure Link where
  state : LinkState
  flagsUp : Bool
  kind : Option String
  network : Network
  refcount : Nat
deriving DecidableEq, Repr

/-- streq_ptr from string-util.h: NULL-safe string comparison. -/
def streq_ptr (a : Option String) (b : String) : Bool := a == some b

/-- Observable actions of the configurator, in the order they are
performed: state changes, request submissions to the netlink transport,
reference-count events. -/
inductive Event where
  | setState (s : LinkState)
  | submitDown
  | submitApply (msg : List CanAttr)
  | linkRefTaken
  | linkRefReleased
  | submitUp
  | enteredFailed
deriving DecidableEq, Repr

/-- Modelled from the spec: link_enter_failed (networkd-link.c, not under
src/) moves the interface to the Failed terminal state. -/
def link_enter_failed (l : Link) : Link × List Event :=
  ({ l with state := LinkState.failed }, [Event.enteredFailed])

/-- Modelled from the spec: link_up (networkd-link.c, not under src/)
submits the generic "bring up" request; submission is abstracted as
always succeeding (return 0). -/
def link_up (l : Link) : Link × List Event × Int :=
  (l, [Event.submitUp], 0)

/-- Modelled from the spec: link_down (networkd-link.c, not under src/)
submits the "set device down" request, registering the given completion
callback; submission is abstracted as always succeeding (return 0). -/
def link_down (l : Link) : Link × List Event × Int :=
  (l, [Event.submitDown], 0)

/-- Modelled from the spec: link_ref (networkd-link.h, not under src/)
increments the interface's reference count. -/
def link_ref (l : Link) : Link :=
  { l with refcount := l.refcount + 1 }

/-- link_set_can from networkd-can.c: builds the "apply parameters"
message (buildCanMessage), submits it via netlink_call_async (abstracted
as always succeeding, registering link_set_handler and the destroy
callback), takes a reference on the link, and, when the device is not
administratively up, calls link_up.  An error while building the message
(the -ERANGE restart check) returns before anything is submitted.
Returns the updated link, the events performed, and the return code. -/
def link_set_can (l : Link) : Link × List Event × Int :=
  match buildCanMessage l.network with
  | Except.error e => (l, [], e)
  | Except.ok msg =>
      let l := link_ref l
      let evs := [Event.submitApply msg, Event.linkRefTaken]
      if !l.flagsUp then
        let (l2, evs2, r) := link_up l
        (l2, evs ++ evs2, r)
      else
        (l, evs, 0)

/-- link_set_handler from networkd-can.c: the completion callback of the
"apply parameters" request.  The kernel reply code of the message is
passed as err.  No-op when the link is already Failed or Lingering; a
negative reply other than -EEXIST moves the link to Failed.  (The
constant C return value 1 is omitted.) -/
def link_set_handler (err : Int) (l : Link) : Link × List Event :=
  if l.state = LinkState.failed ∨ l.state = LinkState.linger then (l, [])
  else if err < 0 ∧ err ≠ -EEXIST then link_enter_failed l
  else (l, [])

/-- link_down_handler from networkd-can.c: the completion callback of the
"set device down" request.  No-op when the link is already Failed or
Lingering; any negative reply moves the link to Failed; on success it
calls link_set_can, entering Failed if that fails.  (The constant C
return value 1 is omitted.) -/
def link_down_handler (err : Int) (l : Link) : Link × List Event :=
  if l.state = LinkState.failed ∨ l.state = LinkState.linger then (l, [])
  else if err < 0 then link_enter_failed l
  else
    let (l2, evs, r) := link_set_can l
    if r < 0 then
      let (l3, evs2) := link_enter_failed l2
      (l3, evs ++ evs2)
    else (l2, evs)

/-- link_configure_can from networkd-can.c: sets the link state to
CONFIGURING; for kind "can", brings the device down first when it is
administratively up (registering link_down_handler), otherwise calls
link_set_can directly; for any other kind, brings the device up when it
is down.  A failing sub-call moves the link to Failed and the error is
returned. -/
def link_configure_can (l : Link) : Link × List Event × Int :=
  let l := { l with state := LinkState.configuring }
  let evs0 := [Event.setState LinkState.configuring]
  if streq_ptr l.kind "can" then
    if l.flagsUp then
      let (l2, evs, r) := link_down l
      if r < 0 then
        let (l3, evs2) := link_enter_failed l2
        (l3, evs0 ++ evs ++ evs2, r)
      else (l2, evs0 ++ evs, 0)
    else
      let (l2, evs, r) := link_set_can l
      if r < 0 then
        let (l3, evs2) := link_enter_failed l2
        (l3, evs0 ++ evs ++ evs2, r)
      else (l2, evs0 ++ evs, 0)
  else
    if !l.flagsUp then
      let (l2, evs, r) := link_up l
      if r < 0 then
        let (l3, evs2) := link_enter_failed l2
        (l3, evs0 ++ evs ++ evs2, r)
      else (l2, evs0 ++ evs, 0)
    else (l, evs0, 0)

/-- An item of a full interaction trace: an action of the configurator,
or the arrival of a kernel reply to an outstanding request. -/
inductive TraceItem where
  | act (e : Event)
  | downReply (err : Int)
  | applyReply (err : Int)
deriving DecidableEq, Repr

/-- Whether an event is the submission of the "apply parameters"
request. -/
def isSubmitApply : Event → Bool
  | Event.submitApply _ => true
  | _ => false

/-- Modelled from the spec: one full configuration run against the
asynchronous transport.  link_configure_can runs first; the reply to each
request it (transitively) submitted arrives afterwards, in submission
order, running the registered completion callback; after the apply
callback returns, the generic destroy-callback mechanism releases the
reference taken for the apply request. -/
def runConfigure (l : Link) (downErr applyErr : Int) :
    Link × List TraceItem :=
  let (l1, evs1, r1) := link_configure_can l
  let t1 := evs1.map TraceItem.act
  if r1 < 0 then (l1, t1)
  else if Event.submitDown ∈ evs1 then
    let (l2, evs2) := link_down_handler downErr l1
    let t2 := t1 ++ [TraceItem.downReply downErr] ++ evs2.map TraceItem.act
    if evs2.any isSubmitApply then
      let (l3, evs3) := link_set_handler applyErr l2
      let l4 := { l3 with refcount := l3.refcount - 1 }
      (l4, t2 ++ [TraceItem.applyReply applyErr] ++ evs3.map TraceItem.act
            ++ [TraceItem.act Event.linkRefReleased])
    else (l2, t2)
  else if evs1.any isSubmitApply then
    let (l2, evs2) := link_set_handler applyErr l1
    let l3 := { l2 with refcount := l2.refcount - 1 }
    (l3, t1 ++ [TraceItem.applyReply applyErr] ++ evs2.map TraceItem.act
          ++ [TraceItem.act Event.linkRefReleased])
  else (l1, t1)

/-- A Parameter Store with nothing configured: zero rates and sample
points, all tri-states unset, no restart timeout. -/
def nUnset : Network :=
  { can_bitrate := 0, can_sample_point := 0, can_data_bitrate := 0,
    can_data_sample_point := 0, can_fd_mode := -1, can_non_iso := -1,
    can_restart_us := 0, can_triple_sampling := -1, can_berr_reporting := -1,
    can_listen_only := -1, can_termination := -1 }

/-- A Parameter Store with all five optional attribute groups
configured. -/
def nAllGroups : Network :=
  { nUnset with
    can_bitrate := 500000
    can_data_bitrate := 2000000
    can_fd_mode := 1
    can_restart_us := 1000
    can_termination := 1 }

/-- A Parameter Store whose restart timeout is the "infinite"
sentinel. -/
def nInfRestart : Network :=
  { nUnset with can_restart_us := USEC_INFINITY }

/-- A Parameter Store whose restart timeout converts to more
milliseconds than fit in 32 bits (2^32 seconds). -/
def nHugeRestart : Network :=
  { nUnset with can_restart_us := 4294967296000000 }

/-- The spec's control-mode scenario: fd_mode explicitly true,
listen_only explicitly false, everything else unset. -/
def nScenario : Network :=
  { nUnset with can_fd_mode := 1, can_listen_only := 0 }

/-- A Parameter Store with sample points configured but both bit rates
left unset (zero). -/
def nSampleOnly : Network :=
  { nUnset with can_sample_point := 875, can_data_sample_point := 750 }

/-- An administratively-down CAN link about to be configured. -/
def lDownCan : Link :=
  { state := LinkState.pending, flagsUp := false, kind := some "can",
    network := nUnset, refcount := 1 }

/-- An administratively-up CAN link about to be configured. -/
def lUpCan : Link :=
  { state := LinkState.pending, flagsUp := true, kind := some "can",
    network := nUnset, refcount := 1 }

/-- A CAN link already in the Failed terminal state. -/
def lFailedCan : Link :=
  { state := LinkState.failed, flagsUp := false, kind := some "can",
    network := nUnset, refcount := 1 }

/-- A CAN link in the (non-terminal) CONFIGURING state, as a completion
callback finds it. -/
def lConfiguringCan : Link :=
  { state := LinkState.configuring, flagsUp := true, kind := some "can",
    network := nUnset, refcount := 2 }

/-- A down CAN link whose restart timeout is the infinite sentinel. -/
def lInfRestartCan : Link :=
  { lDownCan with network := nInfRestart }

/-- A down CAN link whose restart timeout overflows 32-bit
milliseconds. -/
def lHugeRestartCan : Link :=
  { lDownCan with network := nHugeRestart }

/-- The Boolean mirror of the control-mode accumulation equals the
spec-shaped closed forms, by evaluation of all 1024 decision vectors. -/
lemma canCtrlModeB_closed : ∀ a1 b1 a2 b2 a3 b3 a4 b4 a5 b5 : Bool,
    canCtrlModeB a1 b1 a2 b2 a3 b3 a4 b4 a5 b5 =
      { mask := maskClosedB a1 a2 a3 a4 a5,
        flags := flagsClosedB a1 b1 a2 b2 a3 b3 a4 b4 a5 b5 } := by
  decide

/-- Each control-mode step agrees with its Boolean mirror. -/
lemma ctrlStep_eq_B (flag : Nat) (x : Int) (cm : CtrlMode) :
    ctrlStep flag x cm = ctrlStepB flag (decide (x ≥ 0)) (decide (x ≠ 0)) cm := by
  by_cases h1 : x ≥ 0 <;> by_cases h2 : x ≠ 0 <;>
    simp [ctrlStep, ctrlStepB, SET_FLAG, h1, h2]

/-- The control-mode accumulation agrees with its Boolean mirror. -/
lemma canCtrlMode_eq_B (n : Network) :
    canCtrlMode n =
      canCtrlModeB (decide (n.can_fd_mode ≥ 0)) (decide (n.can_fd_mode ≠ 0))
        (decide (n.can_non_iso ≥ 0)) (decide (n.can_non_iso ≠ 0))
        (decide (n.can_triple_sampling ≥ 0)) (decide (n.can_triple_sampling ≠ 0))
        (decide (n.can_berr_reporting ≥ 0)) (decide (n.can_berr_reporting ≠ 0))
        (decide (n.can_listen_only ≥ 0)) (decide (n.can_listen_only ≠ 0)) := by
  simp only [canCtrlMode, canCtrlModeB, ctrlStep_eq_B]

/-- Closed form of the accumulated can_ctrlmode: the mask collects the
bits of the configured tri-states, the flags field the bits of the
tri-states configured true. -/
lemma canCtrlMode_closed (n : Network) :
    canCtrlMode n = { mask := maskClosed n, flags := flagsClosed n } := by
  rw [canCtrlMode_eq_B, canCtrlModeB_closed]
  simp [maskClosedB, maskClosed, flagsClosedB, flagsClosed]

/-- The spec-shaped mask is nonzero exactly when at least one of the five
tri-states is configured. -/
lemma maskClosed_ne_zero_iff (n : Network) :
    maskClosed n ≠ 0 ↔
      (n.can_fd_mode ≥ 0 ∨ n.can_non_iso ≥ 0 ∨ n.can_triple_sampling ≥ 0 ∨
        n.can_berr_reporting ≥ 0 ∨ n.can_listen_only ≥ 0) := by
  unfold maskClosed CAN_CTRLMODE_FD CAN_CTRLMODE_FD_NON_ISO
    CAN_CTRLMODE_3_SAMPLES CAN_CTRLMODE_BERR_REPORTING CAN_CTRLMODE_LISTENONLY
  split_ifs <;> simp_all

/-- Membership in a conditional singleton segment. -/
lemma mem_ite_singleton {α : Type} (a x : α) (c : Prop) [Decidable c] :
    (a ∈ if c then [x] else ([] : List α)) ↔ (c ∧ a = x) := by
  split_ifs with hc <;> simp [hc]

/-- Membership characterization of a successfully built "apply
parameters" message: an attribute is in the message exactly when its
group is configured and it carries the configured values. -/
lemma buildCanMessage_mem (n : Network) (msg : List CanAttr)
    (h : buildCanMessage n = Except.ok msg) (a : CanAttr) :
    a ∈ msg ↔
      ((n.can_bitrate > 0 ∨ n.can_sample_point > 0) ∧
        a = CanAttr.bittiming n.can_bitrate n.can_sample_point) ∨
      ((n.can_data_bitrate > 0 ∨ n.can_data_sample_point > 0) ∧
        a = CanAttr.dataBittiming n.can_data_bitrate n.can_data_sample_point) ∨
      (n.can_restart_us > 0 ∧ a = CanAttr.restartMs (restart_ms_of n)) ∨
      ((canCtrlMode n).mask ≠ 0 ∧
        a = CanAttr.ctrlmode (canCtrlMode n).mask (canCtrlMode n).flags) ∨
      (n.can_termination ≥ 0 ∧
        a = CanAttr.termination
          (if n.can_termination ≠ 0 then CAN_TERMINATION_OHM_VALUE else 0)) := by
  rcases Decidable.em (n.can_restart_us > 0 ∧ restart_ms_of n > UINT32_MAX) with he | he
  · simp [buildCanMessage, he] at h
  · simp only [buildCanMessage, if_neg he, Except.ok.injEq] at h
    subst h
    simp only [List.mem_append, mem_ite_singleton]
    tauto

/-- A build failure is exactly the restart-timeout overflow, with code
-ERANGE. -/
lemma buildCanMessage_err (n : Network) (e : Int)
    (h : buildCanMessage n = Except.error e) :
    e = -ERANGE ∧ n.can_restart_us > 0 ∧ restart_ms_of n > UINT32_MAX := by
  rcases Decidable.em (n.can_restart_us > 0 ∧ restart_ms_of n > UINT32_MAX) with he | he
  · simp [buildCanMessage, he] at h
    exact ⟨h.symm, he⟩
  · simp [buildCanMessage, he] at h

/-- Shape of link_set_can on a successful build: one reference taken
right after submission, then a bring-up exactly when the device is
down. -/
lemma link_set_can_ok (l : Link) (msg : List CanAttr)
    (h : buildCanMessage l.network = Except.ok msg) :
    link_set_can l =
      (link_ref l,
       [Event.submitApply msg, Event.linkRefTaken] ++
         (if l.flagsUp then [] else [Event.submitUp]),
       0) := by
  cases hf : l.flagsUp <;> simp [link_set_can, h, link_up, link_ref, hf]

/-- Shape of link_set_can on a build failure: nothing happens and the
error is returned. -/
lemma link_set_can_err (l : Link) (e : Int)
    (h : buildCanMessage l.network = Except.error e) :
    link_set_can l = (l, [], e) := by
  simp [link_set_can, h]

/-- link_set_can never changes the lifecycle state. -/
lemma link_set_can_state (l : Link) : (link_set_can l).1.state = l.state := by
  cases hb : buildCanMessage l.network with
  | error e => rw [link_set_can_err l e hb]
  | ok msg => rw [link_set_can_ok l msg hb]; cases l.flagsUp <;> simp [link_ref]

/-- C2 (counterexample): with all five attribute groups configured, the
message carries the restart-timeout attribute BEFORE the control-mode
attribute, so the claimed order (control-mode before restart) is wrong. -/
theorem c2_counterexample :
    buildCanMessage nAllGroups = Except.ok
      [CanAttr.bittiming 500000 0, CanAttr.dataBittiming 2000000 0,
       CanAttr.restartMs 1, CanAttr.ctrlmode 32 32, CanAttr.termination 120] ∧
    [CanAttr.bittiming 500000 0, CanAttr.dataBittiming 2000000 0,
       CanAttr.restartMs 1, CanAttr.ctrlmode 32 32, CanAttr.termination 120] ≠
    [CanAttr.bittiming 500000 0, CanAttr.dataBittiming 2000000 0,
       CanAttr.ctrlmode 32 32, CanAttr.restartMs 1, CanAttr.termination 120] := by
  exact ⟨rfl, by decide⟩

/-- C2 (amended): for every Parameter Store in which all five groups of
optional attributes are configured (and the restart timeout converts
within 32 bits), the "apply parameters" message contains the attributes
in exactly this order: bit-timing, data bit-timing, restart-timeout,
control-mode, termination. -/
theorem c2_attribute_order (n : Network)
    (hbt : n.can_bitrate > 0 ∨ n.can_sample_point > 0)
    (hdbt : n.can_data_bitrate > 0 ∨ n.can_data_sample_point > 0)
    (hcm : n.can_fd_mode ≥ 0 ∨ n.can_non_iso ≥ 0 ∨ n.can_triple_sampling ≥ 0 ∨
      n.can_berr_reporting ≥ 0 ∨ n.can_listen_only ≥ 0)
    (hr : n.can_restart_us > 0) (hr2 : restart_ms_of n ≤ UINT32_MAX)
    (ht : n.can_termination ≥ 0) :
    buildCanMessage n = Except.ok
      [CanAttr.bittiming n.can_bitrate n.can_sample_point,
       CanAttr.dataBittiming n.can_data_bitrate n.can_data_sample_point,
       CanAttr.restartMs (restart_ms_of n),
       CanAttr.ctrlmode (canCtrlMode n).mask (canCtrlMode n).flags,
       CanAttr.termination
         (if n.can_termination ≠ 0 then CAN_TERMINATION_OHM_VALUE else 0)] := by
  have hmne : (canCtrlMode n).mask ≠ 0 := by
    rw [canCtrlMode_closed]
    exact (maskClosed_ne_zero_iff n).mpr hcm
  have hne : ¬ (n.can_restart_us > 0 ∧ restart_ms_of n > UINT32_MAX) := by omega
  simp [buildCanMessage, hne, hbt, hdbt, hr, hmne, ht, hr2]

/-- C2 (witness): the amended order theorem applied to the concrete
all-groups Parameter Store. -/
theorem c2_witness :
    buildCanMessage nAllGroups = Except.ok
      [CanAttr.bittiming nAllGroups.can_bitrate nAllGroups.can_sample_point,
       CanAttr.dataBittiming nAllGroups.can_data_bitrate nAllGroups.can_data_sample_point,
       CanAttr.restartMs (restart_ms_of nAllGroups),
       CanAttr.ctrlmode (canCtrlMode nAllGroups).mask (canCtrlMode nAllGroups).flags,
       CanAttr.termination
         (if nAllGroups.can_termination ≠ 0 then CAN_TERMINATION_OHM_VALUE else 0)] :=
  c2_attribute_order nAllGroups (by decide) (by decide) (by decide) (by decide)
    (by decide) (by decide)

/-- C9: the control-mode attribute is appended iff at least one of the
five tri-state flags is explicitly set, and it then carries exactly the
spec-shaped mask (one bit per set flag) and flags field (one bit per
flag set to true); unset flags contribute neither mask nor flags
bits. -/
theorem c9_ctrlmode_bits (n : Network) (msg : List CanAttr)
    (h : buildCanMessage n = Except.ok msg) :
    ((∃ m f, CanAttr.ctrlmode m f ∈ msg) ↔
      (n.can_fd_mode ≥ 0 ∨ n.can_non_iso ≥ 0 ∨ n.can_triple_sampling ≥ 0 ∨
        n.can_berr_reporting ≥ 0 ∨ n.can_listen_only ≥ 0)) ∧
    (∀ m f, CanAttr.ctrlmode m f ∈ msg →
      m = maskClosed n ∧ f = flagsClosed n) := by
  have hcm := canCtrlMode_closed n
  constructor
  · constructor
    · rintro ⟨m, f, hmem⟩
      rw [buildCanMessage_mem n msg h] at hmem
      rcases hmem with ⟨hc, he⟩ | ⟨hc, he⟩ | ⟨hc, he⟩ | ⟨hc, he⟩ | ⟨hc, he⟩ <;>
          simp at he
      rw [hcm] at hc
      exact (maskClosed_ne_zero_iff n).mp hc
    · intro hset
      refine ⟨(canCtrlMode n).mask, (canCtrlMode n).flags, ?_⟩
      rw [buildCanMessage_mem n msg h]
      refine Or.inr (Or.inr (Or.inr (Or.inl ⟨?_, rfl⟩)))
      rw [hcm]
      exact (maskClosed_ne_zero_iff n).mpr hset
  · intro m f hmem
    rw [buildCanMessage_mem n msg h] at hmem
    rcases hmem with ⟨hc, he⟩ | ⟨hc, he⟩ | ⟨hc, he⟩ | ⟨hc, he⟩ | ⟨hc, he⟩ <;>
        simp at he
    rw [hcm] at he
    exact he

/-- C9 (witness): for fd_mode explicitly true and listen_only explicitly
false, the message carries the control-mode attribute with mask 34 (FD
bit 0x20 and listen-only bit 0x02 both set) and flags 32 (FD bit set,
listen-only bit clear). -/
theorem c9_witness :
    (∃ m f, CanAttr.ctrlmode m f ∈ [CanAttr.ctrlmode 34 32]) ∧
    (∀ m f, CanAttr.ctrlmode m f ∈ [CanAttr.ctrlmode 34 32] →
      m = maskClosed nScenario ∧ f = flagsClosed nScenario) ∧
    maskClosed nScenario = 34 ∧ flagsClosed nScenario = 32 := by
  have H := c9_ctrlmode_bits nScenario [CanAttr.ctrlmode 34 32] (by rfl)
  exact ⟨H.1.mpr (by decide), H.2, by decide, by decide⟩

/-- C10: the bit-timing attribute is present iff the bit rate or the
sample point is set, and it then carries exactly the configured pair —
in particular a zero bitrate goes on the wire when only the sample point
is set; same for the data pair. -/
theorem c10_bittiming_gating (n : Network) (msg : List CanAttr)
    (h : buildCanMessage n = Except.ok msg) :
    ((∃ br sp, CanAttr.bittiming br sp ∈ msg) ↔
      (n.can_bitrate > 0 ∨ n.can_sample_point > 0)) ∧
    (∀ br sp, CanAttr.bittiming br sp ∈ msg →
      br = n.can_bitrate ∧ sp = n.can_sample_point) ∧
    ((∃ br sp, CanAttr.dataBittiming br sp ∈ msg) ↔
      (n.can_data_bitrate > 0 ∨ n.can_data_sample_point > 0)) ∧
    (∀ br sp, CanAttr.dataBittiming br sp ∈ msg →
      br = n.can_data_bitrate ∧ sp = n.can_data_sample_point) := by
  refine ⟨⟨?_, ?_⟩, ?_, ⟨?_, ?_⟩, ?_⟩
  · rintro ⟨br, sp, hmem⟩
    rw [buildCanMessage_mem n msg h] at hmem
    rcases hmem with ⟨hc, he⟩ | ⟨hc, he⟩ | ⟨hc, he⟩ | ⟨hc, he⟩ | ⟨hc, he⟩ <;>
        simp at he
    exact hc
  · intro hc
    exact ⟨_, _, (buildCanMessage_mem n msg h _).mpr (Or.inl ⟨hc, rfl⟩)⟩
  · intro br sp hmem
    rw [buildCanMessage_mem n msg h] at hmem
    rcases hmem with ⟨hc, he⟩ | ⟨hc, he⟩ | ⟨hc, he⟩ | ⟨hc, he⟩ | ⟨hc, he⟩ <;>
        simp at he
    exact he
  · rintro ⟨br, sp, hmem⟩
    rw [buildCanMessage_mem n msg h] at hmem
    rcases hmem with ⟨hc, he⟩ | ⟨hc, he⟩ | ⟨hc, he⟩ | ⟨hc, he⟩ | ⟨hc, he⟩ <;>
        simp at he
    exact hc
  · intro hc
    exact ⟨_, _, (buildCanMessage_mem n msg h _).mpr (Or.inr (Or.inl ⟨hc, rfl⟩))⟩
  · intro br sp hmem
    rw [buildCanMessage_mem n msg h] at hmem
    rcases hmem with ⟨hc, he⟩ | ⟨hc, he⟩ | ⟨hc, he⟩ | ⟨hc, he⟩ | ⟨hc, he⟩ <;>
        simp at he
    exact he

/-- C10 (witness): with both bit rates unset but both sample points set,
the message carries bit-timing attributes whose bitrate field is 0. -/
theorem c10_witness :
    (∃ br sp, CanAttr.bittiming br sp ∈
      [CanAttr.bittiming 0 875, CanAttr.dataBittiming 0 750]) ∧
    (0 = nSampleOnly.can_bitrate ∧ 875 = nSampleOnly.can_sample_point) := by
  have H := c10_bittiming_gating nSampleOnly
    [CanAttr.bittiming 0 875, CanAttr.dataBittiming 0 750] (by rfl)
  exact ⟨H.1.mpr (by decide), H.2.1 0 875 (by decide)⟩

/-- C5: an "infinite" restart timeout is serialized as the literal
restart-timeout wire value 0 (the attribute is appended, not omitted);
and whenever the millisecond conversion of a set restart timeout exceeds
UINT32_MAX, link_set_can returns -ERANGE with no event performed, so
nothing reaches the transport. -/
theorem c5_restart_serialization (l : Link) :
    (l.network.can_restart_us = USEC_INFINITY →
      ∃ msg, buildCanMessage l.network = Except.ok msg ∧
        CanAttr.restartMs 0 ∈ msg) ∧
    (l.network.can_restart_us > 0 → restart_ms_of l.network > UINT32_MAX →
      link_set_can l = (l, [], -ERANGE)) := by
  constructor
  · intro hinf
    have hms : restart_ms_of l.network = 0 := by simp [restart_ms_of, hinf]
    cases hb : buildCanMessage l.network with
    | error e =>
        obtain ⟨-, -, h2⟩ := buildCanMessage_err _ _ hb
        rw [hms] at h2
        exact absurd h2 (by decide)
    | ok msg =>
        refine ⟨msg, rfl, ?_⟩
        rw [buildCanMessage_mem _ _ hb]
        refine Or.inr (Or.inr (Or.inl ⟨?_, ?_⟩))
        · rw [hinf]; decide
        · rw [hms]
  · intro hpos hbig
    have hb : buildCanMessage l.network = Except.error (-ERANGE) := by
      simp [buildCanMessage, hpos, hbig]
    exact link_set_can_err l _ hb

/-- C5 (witness): the infinite sentinel yields a message carrying
restart-timeout 0; a 2^32-second restart timeout makes link_set_can
return -ERANGE having performed no event. -/
theorem c5_witness :
    (∃ msg, buildCanMessage lInfRestartCan.network = Except.ok msg ∧
      CanAttr.restartMs 0 ∈ msg) ∧
    link_set_can lHugeRestartCan = (lHugeRestartCan, [], -ERANGE) :=
  ⟨(c5_restart_serialization lInfRestartCan).1 rfl,
   (c5_restart_serialization lHugeRestartCan).2 (by decide) (by decide)⟩

/-- C6: the parser always returns 0 (never aborting configuration
loading); the output field becomes the parsed value exactly when parsing
succeeded with a value in [1, UINT32_MAX], and is left unchanged on a
parse failure or an out-of-range value. -/
theorem c6_bitrate_parse (pr : Except Int Nat) (br : Nat) :
    (config_parse_can_bitrate pr br).2 = 0 ∧
    (∀ sz, pr = Except.ok sz → 1 ≤ sz → sz ≤ UINT32_MAX →
      (config_parse_can_bitrate pr br).1 = sz) ∧
    (∀ sz, pr = Except.ok sz → (sz = 0 ∨ sz > UINT32_MAX) →
      (config_parse_can_bitrate pr br).1 = br) ∧
    (∀ e, pr = Except.error e → (config_parse_can_bitrate pr br).1 = br) := by
  cases pr with
  | error e => simp [config_parse_can_bitrate]
  | ok sz =>
      simp only [config_parse_can_bitrate]
      split_ifs with hrange
      · refine ⟨rfl, ?_, ?_, ?_⟩
        · intro sz' he h1 h2
          obtain rfl : sz = sz' := by injection he
          exact absurd hrange (by omega)
        · intro sz' he hor
          rfl
        · intro e he
          exact he.elim
      · refine ⟨rfl, ?_, ?_, ?_⟩
        · intro sz' he h1 h2
          obtain rfl : sz = sz' := by injection he
          rfl
        · intro sz' he hor
          obtain rfl : sz = sz' := by injection he
          exact absurd hor (by omega)
        · intro e he
          exact he.elim

/-- C6 (witness): 250000 inside the range is stored; 0 and a parse
failure leave the field unchanged; the return code is 0. -/
theorem c6_witness :
    (config_parse_can_bitrate (Except.ok 250000) 0).2 = 0 ∧
    (config_parse_can_bitrate (Except.ok 250000) 0).1 = 250000 ∧
    (config_parse_can_bitrate (Except.ok 0) 77).1 = 77 ∧
    (config_parse_can_bitrate (Except.error (-22)) 77).1 = 77 :=
  ⟨(c6_bitrate_parse (Except.ok 250000) 0).1,
   (c6_bitrate_parse (Except.ok 250000) 0).2.1 250000 rfl (by decide) (by decide),
   (c6_bitrate_parse (Except.ok 0) 77).2.2.1 0 rfl (Or.inl rfl),
   (c6_bitrate_parse (Except.error (-22)) 77).2.2.2 (-22) rfl⟩

/-- The apply-completion callback performs at most the transition to
Failed: its event list is empty or the single enteredFailed event. -/
lemma link_set_handler_events (err : Int) (l : Link) :
    (link_set_handler err l).2 = [] ∨
      (link_set_handler err l).2 = [Event.enteredFailed] := by
  unfold link_set_handler link_enter_failed
  split_ifs <;> simp

/-- Shape of link_configure_can on an administratively-up CAN link: set
CONFIGURING, submit the down request, done. -/
lemma link_configure_can_up (l : Link)
    (hk : streq_ptr l.kind "can" = true) (hf : l.flagsUp = true) :
    link_configure_can l =
      ({ l with state := LinkState.configuring },
       [Event.setState LinkState.configuring, Event.submitDown], 0) := by
  simp [link_configure_can, hk, hf, link_down]

/-- Shape of link_configure_can on an administratively-down CAN link
whose message builds: set CONFIGURING, submit the apply request, take
the reference, bring the link up. -/
lemma link_configure_can_down_ok (l : Link) (msg : List CanAttr)
    (hk : streq_ptr l.kind "can" = true) (hf : l.flagsUp = false)
    (hb : buildCanMessage l.network = Except.ok msg) :
    link_configure_can l =
      (link_ref { l with state := LinkState.configuring },
       [Event.setState LinkState.configuring, Event.submitApply msg,
        Event.linkRefTaken, Event.submitUp], 0) := by
  obtain ⟨st, fl, kd, nw, rc⟩ := l
  simp only at hf hb ⊢
  subst hf
  have hsc := link_set_can_ok
    { state := LinkState.configuring, flagsUp := false, kind := kd,
      network := nw, refcount := rc } msg hb
  simp [link_configure_can, hk, hsc, link_ref]

/-- Shape of link_configure_can on an administratively-down CAN link
whose message build fails: set CONFIGURING, then enter Failed with the
build error, with nothing submitted. -/
lemma link_configure_can_down_err (l : Link) (e : Int)
    (hk : streq_ptr l.kind "can" = true) (hf : l.flagsUp = false)
    (hb : buildCanMessage l.network = Except.error e) :
    link_configure_can l =
      ({ l with state := LinkState.failed },
       [Event.setState LinkState.configuring, Event.enteredFailed], e) := by
  have he : e = -ERANGE := (buildCanMessage_err _ _ hb).1
  have hneg : e < 0 := by rw [he]; decide
  obtain ⟨st, fl, kd, nw, rc⟩ := l
  simp only at hf hb ⊢
  subst hf
  have hsc := link_set_can_err
    { state := LinkState.configuring, flagsUp := false, kind := kd,
      network := nw, refcount := rc } e hb
  simp [link_configure_can, hk, hsc, hneg, link_enter_failed]

/-- Shape of link_configure_can on a non-CAN link: set CONFIGURING and
bring the link up exactly when it is administratively down. -/
lemma link_configure_can_not_can (l : Link)
    (hk : streq_ptr l.kind "can" = false) :
    link_configure_can l =
      ({ l with state := LinkState.configuring },
       Event.setState LinkState.configuring ::
         (if l.flagsUp then [] else [Event.submitUp]), 0) := by
  cases hf : l.flagsUp <;> simp [link_configure_can, hk, hf, link_up]

/-- C1 (counterexample): on a down CAN interface with empty
configuration and success replies, the full trace shows the bring-up
request submitted from link_set_can, strictly before the apply reply
arrives — not from within the apply-completion callback. -/
theorem c1_counterexample :
    (runConfigure lDownCan 0 0).2 =
      [TraceItem.act (Event.setState LinkState.configuring),
       TraceItem.act (Event.submitApply []),
       TraceItem.act Event.linkRefTaken,
       TraceItem.act Event.submitUp,
       TraceItem.applyReply 0,
       TraceItem.act Event.linkRefReleased] ∧
    (runConfigure lDownCan 0 0).2.indexOf (TraceItem.act Event.submitUp) <
      (runConfigure lDownCan 0 0).2.indexOf (TraceItem.applyReply 0) := by
  decide

/-- C1 (amended): when link_set_can returns success it has itself issued
the bring-up request — immediately after submitting the apply request
and thus before any reply is processed — exactly once iff the device was
not administratively up; and the apply-completion callback never issues
a bring-up request. -/
theorem c1_bring_up_placement (l : Link) (err : Int) :
    ((link_set_can l).2.1.count Event.submitUp =
      if (link_set_can l).2.2 = 0 ∧ l.flagsUp = false then 1 else 0) ∧
    Event.submitUp ∉ (link_set_handler err l).2 := by
  constructor
  · cases hb : buildCanMessage l.network with
    | error e =>
        rw [link_set_can_err l e hb]
        have he : e = -ERANGE := (buildCanMessage_err _ _ hb).1
        have : ¬ (e = 0 ∧ l.flagsUp = false) := by
          rintro ⟨h0, -⟩
          rw [he] at h0
          exact absurd h0 (by decide)
        simp [this]
    | ok msg =>
        rw [link_set_can_ok l msg hb]
        cases hf : l.flagsUp <;> simp [hf]
  · rcases link_set_handler_events err l with h | h <;> simp [h]

/-- C3 (counterexample): a kernel reply of -EEXIST to the "set device
down" request moves a non-terminal interface to Failed — the down
callback has no "already exists" exemption. -/
theorem c3_counterexample :
    lConfiguringCan.state ≠ LinkState.failed ∧
    lConfiguringCan.state ≠ LinkState.linger ∧
    (link_down_handler (-EEXIST) lConfiguringCan).1.state = LinkState.failed := by
  decide

/-- C3 (amended): on a non-terminal interface, the apply-parameters
callback moves the interface to Failed exactly on a negative reply other
than -EEXIST (so -EEXIST is success there), while the set-device-down
callback moves it to Failed on every negative reply, -EEXIST included
(and otherwise exactly when the follow-up link_set_can fails). -/
theorem c3_eexist_handling (l : Link) (err : Int)
    (hs : ¬ (l.state = LinkState.failed ∨ l.state = LinkState.linger)) :
    ((link_set_handler err l).1.state = LinkState.failed ↔
      (err < 0 ∧ err ≠ -EEXIST)) ∧
    ((link_down_handler err l).1.state = LinkState.failed ↔
      (err < 0 ∨ (link_set_can l).2.2 < 0)) := by
  have hns : l.state ≠ LinkState.failed := fun h => hs (Or.inl h)
  constructor
  · unfold link_set_handler
    rw [if_neg hs]
    split_ifs with hc
    · simp [link_enter_failed, hc]
    · simp [hns, hc]
  · unfold link_down_handler
    rw [if_neg hs]
    split_ifs with hc
    · simp [link_enter_failed, hc]
    · rcases hsc : link_set_can l with ⟨l2, ⟨evs, r⟩⟩
      have hst : l2.state = l.state := by
        have h0 := link_set_can_state l
        rw [hsc] at h0
        exact h0
      simp only [hsc]
      split_ifs with hr
      · simp [link_enter_failed, hc, hr]
      · simp [hst, hns, hc, hr]

/-- C3 (witness): the amended handler dichotomy at a concrete
non-terminal link with reply code -5. -/
theorem c3_witness :
    ((link_set_handler (-5) lConfiguringCan).1.state = LinkState.failed ↔
      ((-5 : Int) < 0 ∧ (-5 : Int) ≠ -EEXIST)) ∧
    ((link_down_handler (-5) lConfiguringCan).1.state = LinkState.failed ↔
      ((-5 : Int) < 0 ∨ (link_set_can lConfiguringCan).2.2 < 0)) :=
  c3_eexist_handling lConfiguringCan (-5) (by decide)

/-- C7 (counterexample): the entry point acts on an interface already in
the Failed terminal state: it submits the apply request for it and moves
its state away from Failed. -/
theorem c7_counterexample :
    lFailedCan.state = LinkState.failed ∧
    Event.submitApply [] ∈ (link_configure_can lFailedCan).2.1 ∧
    (link_configure_can lFailedCan).1.state ≠ LinkState.failed := by
  decide

/-- C7 (amended): both completion callbacks check the lifecycle state on
entry and are no-ops on a terminal (Failed or Lingering) interface; the
entry point link_configure_can performs no such check and always begins
by setting the state to CONFIGURING, terminal or not. -/
theorem c7_terminal_no_op (l : Link) (err : Int) :
    ((l.state = LinkState.failed ∨ l.state = LinkState.linger) →
      link_set_handler err l = (l, []) ∧ link_down_handler err l = (l, [])) ∧
    (link_configure_can l).2.1.head? =
      some (Event.setState LinkState.configuring) := by
  constructor
  · intro hs
    constructor
    · unfold link_set_handler
      rw [if_pos hs]
    · unfold link_down_handler
      rw [if_pos hs]
  · cases hk : streq_ptr l.kind "can" with
    | false => simp [link_configure_can_not_can l hk]
    | true =>
        cases hf : l.flagsUp with
        | true => simp [link_configure_can_up l hk hf]
        | false =>
            cases hb : buildCanMessage l.network with
            | error e => simp [link_configure_can_down_err l e hk hf hb]
            | ok msg => simp [link_configure_can_down_ok l msg hk hf hb]

/-- C7 (witness): at a Failed link both callbacks are no-ops, yet the
entry point still opens with the state change to CONFIGURING. -/
theorem c7_witness :
    (link_set_handler (-1) lFailedCan = (lFailedCan, []) ∧
     link_down_handler (-1) lFailedCan = (lFailedCan, [])) ∧
    (link_configure_can lFailedCan).2.1.head? =
      some (Event.setState LinkState.configuring) :=
  ⟨(c7_terminal_no_op lFailedCan (-1)).1 (Or.inl rfl),
   (c7_terminal_no_op lFailedCan (-1)).2⟩

/-- C4: for a CAN-kind link that is administratively up, the
configurator submits only the down request (no apply request); a failing
down reply moves the interface to Failed with no apply submitted, while
a successful down reply makes the callback submit the apply request; for
a CAN-kind link that is administratively down, the apply request is
submitted directly with no down request. -/
theorem c4_down_before_apply (l : Link) (err : Int)
    (hk : l.kind = some "can") :
    (l.flagsUp = true →
      (link_configure_can l).2.1 =
        [Event.setState LinkState.configuring, Event.submitDown] ∧
      (err < 0 →
        (link_down_handler err (link_configure_can l).1).1.state =
          LinkState.failed ∧
        (∀ msg, Event.submitApply msg ∉
          (link_down_handler err (link_configure_can l).1).2)) ∧
      (0 ≤ err → ∀ msg, buildCanMessage l.network = Except.ok msg →
        Event.submitApply msg ∈
          (link_down_handler err (link_configure_can l).1).2)) ∧
    (l.flagsUp = false →
      Event.submitDown ∉ (link_configure_can l).2.1 ∧
      (∀ msg, buildCanMessage l.network = Except.ok msg →
        Event.submitApply msg ∈ (link_configure_can l).2.1)) := by
  have hstr : streq_ptr l.kind "can" = true := by
    simp [streq_ptr, hk]
  constructor
  · intro hf
    have hcfg := link_configure_can_up l hstr hf
    rw [hcfg]
    refine ⟨rfl, ?_, ?_⟩
    · intro herr
      unfold link_down_handler
      rw [if_neg (by simp)]
      rw [if_pos herr]
      simp [link_enter_failed]
    · intro herr msg hb
      unfold link_down_handler
      rw [if_neg (by simp)]
      rw [if_neg (by omega)]
      have hsc := link_set_can_ok
        { l with state := LinkState.configuring } msg hb
      simp only [hsc]
      rw [if_neg (by decide)]
      simp
  · intro hf
    cases hb : buildCanMessage l.network with
    | error e =>
        rw [link_configure_can_down_err l e hstr hf hb]
        constructor
        · simp
        · intro msg hb'
          exact Except.noConfusion hb'
    | ok msg =>
        rw [link_configure_can_down_ok l msg hstr hf hb]
        constructor
        · simp
        · intro msg' hb'
          obtain rfl : msg = msg' := by injection hb'
          simp

/-- C4 (witness): the ordering facts at concrete up and down CAN links
with an empty Parameter Store (whose message builds as the empty
attribute list). -/
theorem c4_witness :
    (link_configure_can lUpCan).2.1 =
      [Event.setState LinkState.configuring, Event.submitDown] ∧
    (link_down_handler (-5) (link_configure_can lUpCan).1).1.state =
      LinkState.failed ∧
    Event.submitApply [] ∈
      (link_down_handler 0 (link_configure_can lUpCan).1).2 ∧
    Event.submitDown ∉ (link_configure_can lDownCan).2.1 ∧
    Event.submitApply [] ∈ (link_configure_can lDownCan).2.1 :=
  ⟨((c4_down_before_apply lUpCan (-5) rfl).1 rfl).1,
   (((c4_down_before_apply lUpCan (-5) rfl).1 rfl).2.1 (by decide)).1,
   ((c4_down_before_apply lUpCan 0 rfl).1 rfl).2.2 (by decide) [] rfl,
   ((c4_down_before_apply lDownCan 0 rfl).2 rfl).1,
   ((c4_down_before_apply lDownCan 0 rfl).2 rfl).2 [] rfl⟩

/-- The apply-completion callback never touches the reference count. -/
lemma link_set_handler_refcount (err : Int) (l : Link) :
    (link_set_handler err l).1.refcount = l.refcount := by
  unfold link_set_handler link_enter_failed
  split_ifs <;> simp

/-- Over a full configuration run, reference-taking and
reference-release events balance exactly, and the final reference count
equals the initial one. -/
lemma runConfigure_ref_balance (l : Link) (derr aerr : Int) :
    (runConfigure l derr aerr).2.count (TraceItem.act Event.linkRefTaken) =
      (runConfigure l derr aerr).2.count (TraceItem.act Event.linkRefReleased) ∧
    (runConfigure l derr aerr).1.refcount = l.refcount := by
  cases hk : streq_ptr l.kind "can" with
  | false =>
      have hcfg := link_configure_can_not_can l hk
      cases hf : l.flagsUp <;>
        simp [runConfigure, hcfg, hf, isSubmitApply]
  | true =>
      cases hf : l.flagsUp with
      | false =>
          cases hb : buildCanMessage l.network with
          | error e =>
              have he : e = -ERANGE := (buildCanMessage_err _ _ hb).1
              subst he
              have hcfg := link_configure_can_down_err l _ hk hf hb
              simp [runConfigure, hcfg, isSubmitApply,
                show (-ERANGE : Int) < 0 from by decide]
          | ok msg =>
              have hcfg := link_configure_can_down_ok l msg hk hf hb
              rcases link_set_handler_events aerr
                  { l with state := LinkState.configuring, refcount := l.refcount + 1 } with h2 | h2 <;>
                simp [runConfigure, hcfg, isSubmitApply, h2, link_ref,
                  link_set_handler_refcount]
      | true =>
          have hcfg := link_configure_can_up l hk hf
          by_cases hderr : derr < 0
          · have hdh : link_down_handler derr
                { l with state := LinkState.configuring } =
                ({ l with state := LinkState.failed }, [Event.enteredFailed]) := by
              unfold link_down_handler
              rw [if_neg (by simp), if_pos hderr]
              simp [link_enter_failed]
            simp [runConfigure, hcfg, hdh, isSubmitApply]
          · cases hb : buildCanMessage l.network with
            | error e =>
                have he : e = -ERANGE := (buildCanMessage_err _ _ hb).1
                subst he
                have hsc := link_set_can_err
                  { l with state := LinkState.configuring } _ hb
                have hdh : link_down_handler derr
                    { l with state := LinkState.configuring } =
                    ({ l with state := LinkState.failed }, [Event.enteredFailed]) := by
                  unfold link_down_handler
                  rw [if_neg (by simp), if_neg hderr]
                  simp only [hsc]
                  rw [if_pos (by decide)]
                  simp [link_enter_failed]
                simp [runConfigure, hcfg, hdh, isSubmitApply]
            | ok msg =>
                have hsc := link_set_can_ok
                  { l with state := LinkState.configuring } msg hb
                have hdh : link_down_handler derr
                    { l with state := LinkState.configuring } =
                    (link_ref { l with state := LinkState.configuring },
                     [Event.submitApply msg, Event.linkRefTaken]) := by
                  unfold link_down_handler
                  rw [if_neg (by simp), if_neg hderr]
                  simp only [hsc]
                  rw [if_neg (by decide)]
                  simp [hf]
                rcases link_set_handler_events aerr
                    { l with state := LinkState.configuring, refcount := l.refcount + 1 } with h2 | h2 <;>
                  simp [runConfigure, hcfg, hdh, isSubmitApply, h2, link_ref,
                    link_set_handler_refcount]

/-- C8 (counterexample): the reference is taken immediately AFTER the
apply request is submitted, not before: in the event trace the
submission strictly precedes the increment. -/
theorem c8_counterexample :
    (link_set_can lUpCan).2.1 = [Event.submitApply [], Event.linkRefTaken] ∧
    (link_set_can lUpCan).2.1.indexOf (Event.submitApply []) <
      (link_set_can lUpCan).2.1.indexOf Event.linkRefTaken ∧
    ¬ ((link_set_can lUpCan).2.1.indexOf Event.linkRefTaken <
        (link_set_can lUpCan).2.1.indexOf (Event.submitApply [])) := by
  decide

/-- C8 (amended): per apply request, the reference count is incremented
exactly once, immediately after the request is successfully submitted
(and not at all when building the message fails, in which case nothing
is submitted); over a full run the increment is matched by exactly one
release via the destroy-callback mechanism, restoring the reference
count. -/
theorem c8_refcount_discipline (l : Link) :
    ((link_set_can l).2.2 < 0 →
      (link_set_can l).1 = l ∧ (link_set_can l).2.1 = []) ∧
    ((link_set_can l).2.2 = 0 →
      (link_set_can l).1.refcount = l.refcount + 1 ∧
      (link_set_can l).2.1.count Event.linkRefTaken = 1 ∧
      (∃ msg, buildCanMessage l.network = Except.ok msg ∧
        (link_set_can l).2.1.take 2 =
          [Event.submitApply msg, Event.linkRefTaken])) ∧
    (∀ derr aerr,
      (runConfigure l derr aerr).2.count (TraceItem.act Event.linkRefTaken) =
        (runConfigure l derr aerr).2.count (TraceItem.act Event.linkRefReleased) ∧
      (runConfigure l derr aerr).1.refcount = l.refcount) := by
  refine ⟨?_, ?_, ?_⟩
  · intro hneg
    cases hb : buildCanMessage l.network with
    | error e =>
        rw [link_set_can_err l e hb]
        exact ⟨rfl, rfl⟩
    | ok msg =>
        rw [link_set_can_ok l msg hb] at hneg
        simp at hneg
  · intro h0
    cases hb : buildCanMessage l.network with
    | error e =>
        rw [link_set_can_err l e hb] at h0
        have he : e = -ERANGE := (buildCanMessage_err _ _ hb).1
        rw [he] at h0
        simp [ERANGE] at h0
    | ok msg =>
        rw [link_set_can_ok l msg hb]
        refine ⟨by simp [link_ref], ?_, msg, rfl, ?_⟩
        · cases hf : l.flagsUp <;> simp [hf]
        · cases hf : l.flagsUp <;> simp [hf]
  · intro derr aerr
    exact runConfigure_ref_balance l derr aerr

/-- C8 (witness): the reference-count discipline at a concrete up CAN
link, and the balanced take/release over its full run. -/
theorem c8_witness :
    (link_set_can lUpCan).1.refcount = lUpCan.refcount + 1 ∧
    (link_set_can lUpCan).2.1.count Event.linkRefTaken = 1 ∧
    (∃ msg, buildCanMessage lUpCan.network = Except.ok msg ∧
      (link_set_can lUpCan).2.1.take 2 =
        [Event.submitApply msg, Event.linkRefTaken]) ∧
    (runConfigure lUpCan 0 0).2.count (TraceItem.act Event.linkRefTaken) =
      (runConfigure lUpCan 0 0).2.count (TraceItem.act Event.linkRefReleased) ∧
    (runConfigure lUpCan 0 0).1.refcount = lUpCan.refcount :=
  ⟨((c8_refcount_discipline lUpCan).2.1 (by decide)).1,
   ((c8_refcount_discipline lUpCan).2.1 (by decide)).2.1,
   ((c8_refcount_discipline lUpCan).2.1 (by decide)).2.2,
   ((c8_refcount_discipline lUpCan).2.2 0 0).1,
   ((c8_refcount_discipline lUpCan).2.2 0 0).2⟩
